import Mathlib

/-!
# Smart-Car-Parking: shallow embedding of `parking_and_notification.ino`

This file embeds the access-control and occupancy state machine of the
Arduino sketch `src/parking_and_notification.ino` and proves the testable
properties about it.

Modelling choices:
* Machine `int` values become `Int`; Arduino `byte` (uint8) becomes `Fin 256`.
* `digitalRead` results become a two-value `PinLevel` enum (LOW / HIGH).
* Arduino `String` values become Lean `String`; `toUpperCase` is per-character
  uppercasing (`Char.toUpper` mapped over the character data) and
  `substring(1)` drops the first character.
* The global mutable state (`availableSlots`, `gateOpen`, `lastCardIndex`,
  `vehicleEntering`) becomes the record `SysState`; one iteration of `loop()`
  becomes the pure function `loopStep` over a per-cycle `Inputs` record,
  additionally collecting the observable effects (SMS sends, LCD prints,
  servo gate commands) in an `Outputs` record.
* Out-of-bounds C++ array indexing `userPhoneNumbers[i]` is modelled with
  `List.getD` and the default `""` standing for the undefined read.
-/

/-- A digital pin level, as returned by `digitalRead`. -/
inductive PinLevel
  | LOW
  | HIGH
deriving DecidableEq, Repr

/-- A servo command issued to the gate: `openCmd` models
`gateServo.write(90)` in `openGate`, `closeCmd` models `gateServo.write(0)`
in `closeGate`. -/
inductive GateCmd
  | openCmd
  | closeCmd
deriving DecidableEq, Repr

/-- `String authorizedCards[]` — the static table of authorized RFID card
UIDs. -/
def authorizedCards : List String :=
  ["A1 B2 C3 D4", "E5 F6 G7 H8", "11 22 33 44"]

/-- `const int NUM_AUTHORIZED_CARDS = 3`. -/
def NUM_AUTHORIZED_CARDS : Int := 3

/-- `String userPhoneNumbers[]` — one phone number per authorized card. -/
def userPhoneNumbers : List String :=
  ["+1234567890", "+1234567891", "+1234567892"]

/-- `int totalSlots = 4` (never mutated by the sketch). -/
def totalSlots : Int := 4

/-- The global mutable state of the sketch. -/
structure SysState where
  availableSlots : Int
  gateOpen : Bool
  lastCardIndex : Int
  vehicleEntering : Bool
deriving DecidableEq, Repr

/-- The state set up by `setup()`/the global initializers:
`availableSlots = 4`, `gateOpen = false` (closeGate at startup),
`lastCardIndex = -1`, `vehicleEntering = false`. -/
def initialState : SysState :=
  { availableSlots := 4, gateOpen := false, lastCardIndex := -1, vehicleEntering := false }

/-- The sensor and reader inputs consumed by one iteration of `loop()`.
`card = some uid` models `PICC_IsNewCardPresent && PICC_ReadCardSerial`
succeeding with `getCardUID()` returning `uid`; `card = none` models no new
card. The six `PinLevel` fields are the `digitalRead` results of the entry
threshold, exit threshold and the four slot sensors. -/
structure Inputs where
  card : Option String
  entrySensor : PinLevel
  exitSensor : PinLevel
  slot1 : PinLevel
  slot2 : PinLevel
  slot3 : PinLevel
  slot4 : PinLevel
deriving DecidableEq, Repr

/-- The observable effects of one iteration of `loop()`: SMS messages sent
(destination phone number, message body), strings printed to the LCD, and
servo commands issued to the gate. -/
structure Outputs where
  sms : List (String × String)
  lcdPrints : List String
  gateCmds : List GateCmd
deriving DecidableEq, Repr

/-- The number of slot sensors reading LOW (occupied), as counted by
`updateAvailableSlots`. -/
def occupiedCount (i : Inputs) : Int :=
  (if i.slot1 = PinLevel.LOW then 1 else 0) +
  (if i.slot2 = PinLevel.LOW then 1 else 0) +
  (if i.slot3 = PinLevel.LOW then 1 else 0) +
  (if i.slot4 = PinLevel.LOW then 1 else 0)

/-- `updateAvailableSlots()` — recomputes `availableSlots` as
`totalSlots - occupiedSlots` from the four slot sensors. -/
def updateAvailableSlots (i : Inputs) (s : SysState) : SysState :=
  { s with availableSlots := totalSlots - occupiedCount i }

/-- `checkAuthorization`'s `for` loop: linear scan of the card table
carrying the running index, returning the index of the first match or
`-1`. -/
def checkAuthorizationAux (cardUID : String) : List String → Int → Int
  | [], _ => -1
  | c :: rest, idx => if cardUID = c then idx else checkAuthorizationAux cardUID rest (idx + 1)

/-- `int checkAuthorization(String cardUID)` — returns the index of the
first entry of `authorizedCards` equal to `cardUID`, or `-1`. -/
def checkAuthorization (cardUID : String) : Int :=
  checkAuthorizationAux cardUID authorizedCards 0

/-- `int determineExitingVehicle()` — returns the last card index used to
enter. -/
def determineExitingVehicle (s : SysState) : Int :=
  s.lastCardIndex

/-- The LCD prints issued by one call of `updateLCDDisplay()`:
`"Parking System"` on line 0, then `"Free Slots: "` and the slot count on
line 1 (the two prints of line 1 shown as their concatenation). -/
def lcdDisplayPrints (s : SysState) : List String :=
  ["Parking System", "Free Slots: " ++ toString s.availableSlots]

/-- The RFID block of `loop()` (lines 103–126): on a new card, check
authorization; if authorized, record the card index, mark the vehicle as
entering and open the gate; otherwise print the denial message. -/
def cardPhase (i : Inputs) (p : SysState × Outputs) : SysState × Outputs :=
  match i.card with
  | none => p
  | some cardUID =>
    let s := p.1
    let out := p.2
    let cardIndex := checkAuthorization cardUID
    if cardIndex ≥ 0 then
      ({ s with lastCardIndex := cardIndex, vehicleEntering := true, gateOpen := true },
       { out with gateCmds := out.gateCmds ++ [GateCmd.openCmd] })
    else
      (s, { out with lcdPrints := out.lcdPrints ++ ["Access Denied!  "] })

/-- The entry-sensor block of `loop()` (lines 129–144): if the gate is open,
a vehicle is entering and the entry sensor reads LOW, then (after the settle
delay) decrement `availableSlots` when positive — sending the entry SMS when
a card index is recorded — and unconditionally close the gate and clear
`vehicleEntering`. -/
def entryPhase (i : Inputs) (p : SysState × Outputs) : SysState × Outputs :=
  let s := p.1
  let out := p.2
  if s.gateOpen = true ∧ s.vehicleEntering = true ∧ i.entrySensor = PinLevel.LOW then
    let q :=
      if s.availableSlots > 0 then
        let s' := { s with availableSlots := s.availableSlots - 1 }
        if s'.lastCardIndex ≥ 0 then
          (s', { out with sms := out.sms ++
                  [(userPhoneNumbers.getD s'.lastCardIndex.toNat "",
                    "Your vehicle has entered the parking. Available slots: " ++
                      toString s'.availableSlots)] })
        else (s', out)
      else (s, out)
    ({ q.1 with gateOpen := false, vehicleEntering := false },
     { q.2 with gateCmds := q.2.gateCmds ++ [GateCmd.closeCmd] })
  else p

/-- The exit-sensor block of `loop()` (lines 147–165): if the exit sensor
reads LOW, open the gate; after the settle delay, if `availableSlots <
totalSlots` increment it and — when `determineExitingVehicle` yields a
recorded index — send the exit SMS; then close the gate. -/
def exitPhase (i : Inputs) (p : SysState × Outputs) : SysState × Outputs :=
  let s := p.1
  let out := p.2
  if i.exitSensor = PinLevel.LOW then
    let out1 := { out with gateCmds := out.gateCmds ++ [GateCmd.openCmd] }
    let s1 := { s with gateOpen := true }
    let q :=
      if s1.availableSlots < totalSlots then
        let s2 := { s1 with availableSlots := s1.availableSlots + 1 }
        let leavingCardIndex := determineExitingVehicle s2
        if leavingCardIndex ≥ 0 then
          (s2, { out1 with sms := out1.sms ++
                  [(userPhoneNumbers.getD leavingCardIndex.toNat "",
                    "Your vehicle has exited the parking. Thank you!")] })
        else (s2, out1)
      else (s1, out1)
    ({ q.1 with gateOpen := false },
     { q.2 with gateCmds := q.2.gateCmds ++ [GateCmd.closeCmd] })
  else p

/-- The first half of `loop()`: refresh the slot count from the sensors,
update the LCD, then run the RFID block. -/
def cardStage (i : Inputs) (s : SysState) : SysState × Outputs :=
  let s0 := updateAvailableSlots i s
  cardPhase i (s0, { sms := [], lcdPrints := lcdDisplayPrints s0, gateCmds := [] })

/-- One full iteration of `loop()` as a pure function: refresh the slot
count, update the LCD, then run the RFID, entry-sensor and exit-sensor
blocks in order. -/
def loopStep (i : Inputs) (s : SysState) : SysState × Outputs :=
  exitPhase i (entryPhase i (cardStage i s))

/-! ## `getCardUID` (lines 171–179)

The MFRC522 driver delivers the card UID as `uid.size` bytes
(`byte uidByte[]`, so each value is below 256); we model the physical UID as
a `List (Fin 256)`. `String(value, HEX)` renders an Arduino byte in
lowercase hexadecimal without leading zeros (one digit below 0x10, two
digits otherwise). -/

/-- The space character (the separator `getCardUID` inserts before each
byte). -/
def spaceChar : Char := Char.ofNat 32

/-- The lowercase hexadecimal digit for `n < 16`, as produced by Arduino
`String(value, HEX)`. -/
def hexDigitChar (n : Nat) : Char :=
  if n < 10 then Char.ofNat (48 + n) else Char.ofNat (87 + n)

/-- `String(uidByte[i], HEX)` for a byte: one lowercase hex digit below
0x10, two otherwise. -/
def hexStringOfByte (b : Fin 256) : String :=
  if b.val < 16 then ⟨[hexDigitChar b.val]⟩
  else ⟨[hexDigitChar (b.val / 16), hexDigitChar (b.val % 16)]⟩

/-- `String getCardUID()` — for each UID byte, append `" 0"` (below 0x10)
or `" "` and then the byte in hex; uppercase the whole string
(`toUpperCase`, i.e. `Char.toUpper` on each character); drop the leading
space (`substring(1)`). -/
def getCardUID (bytes : List (Fin 256)) : String :=
  let raw := bytes.foldl
    (fun acc b => acc ++ (if b.val < 16 then " 0" else " ") ++ hexStringOfByte b) ""
  ⟨(raw.data.map Char.toUpper).drop 1⟩

/-- The uppercase hexadecimal digit for `n < 16`. -/
def hexUpperChar (n : Nat) : Char :=
  (hexDigitChar n).toUpper

/-- The two lowercase hex digits of a byte, zero-padded to width 2. -/
def hexPairLowerData (b : Fin 256) : List Char :=
  [hexDigitChar (b.val / 16), hexDigitChar (b.val % 16)]

/-- The two uppercase hex digits of a byte, zero-padded to width 2. -/
def hexPairUpperData (b : Fin 256) : List Char :=
  [hexUpperChar (b.val / 16), hexUpperChar (b.val % 16)]

/-- The character data accumulated by `getCardUID`'s loop before
uppercasing: a space followed by the two (padded) hex digits, per byte. -/
def uidRawData : List (Fin 256) → List Char
  | [] => []
  | b :: rest => (spaceChar :: hexPairLowerData b) ++ uidRawData rest

/-- `uidRawData` after uppercasing each character. -/
def uidUpperData : List (Fin 256) → List Char
  | [] => []
  | b :: rest => (spaceChar :: hexPairUpperData b) ++ uidUpperData rest

/-- The canonical identifier format: two-character uppercase hex pairs
separated by single spaces. -/
def uidFormatData : List (Fin 256) → List Char
  | [] => []
  | [b] => hexPairUpperData b
  | b :: c :: rest => hexPairUpperData b ++ spaceChar :: uidFormatData (c :: rest)

/-- A character is an uppercase hexadecimal digit. -/
def isUpperHexDigit (c : Char) : Prop :=
  c ∈ ("0123456789ABCDEF" : String).data

instance (c : Char) : Decidable (isUpperHexDigit c) := by
  unfold isUpperHexDigit; infer_instance

/-! ## Invariants and concrete scenario constants -/

/-- `lastCardIndex` is `-1` or a valid index into the card table. It is
initialized to `-1` and only ever overwritten with a non-negative
`checkAuthorization` result. -/
def cardIndexInv (s : SysState) : Prop :=
  s.lastCardIndex = -1 ∨ (0 ≤ s.lastCardIndex ∧ s.lastCardIndex < NUM_AUTHORIZED_CARDS)

/-- Inputs with no card and all sensors quiet (HIGH). -/
def quietInputs : Inputs :=
  { card := none, entrySensor := PinLevel.HIGH, exitSensor := PinLevel.HIGH,
    slot1 := PinLevel.HIGH, slot2 := PinLevel.HIGH, slot3 := PinLevel.HIGH,
    slot4 := PinLevel.HIGH }

/-- Capacity-exhaustion scenario state: entry session active (gate open,
vehicle entering, card index 0 recorded) with the lot full. -/
def c1State : SysState :=
  { availableSlots := 0, gateOpen := true, lastCardIndex := 0, vehicleEntering := true }

/-- Capacity-exhaustion scenario inputs: no new card, entry threshold
crossed, exit quiet, all four slot sensors occupied (so the refresh yields
`free_slots = 0`). -/
def c1Inputs : Inputs :=
  { card := none, entrySensor := PinLevel.LOW, exitSensor := PinLevel.HIGH,
    slot1 := PinLevel.LOW, slot2 := PinLevel.LOW, slot3 := PinLevel.LOW,
    slot4 := PinLevel.LOW }

/-- Entry scenario, cycle 1: card `"A1 B2 C3 D4"` presented, all sensors
quiet, all slots free. -/
def c6Inputs1 : Inputs :=
  { quietInputs with card := some "A1 B2 C3 D4" }

/-- Entry scenario, cycle 2: no card, entry threshold reports passage, all
slots still free. -/
def c6Inputs2 : Inputs :=
  { quietInputs with entrySensor := PinLevel.LOW }

/-- Denied scenario inputs: unknown card `"FF FF FF FF"` presented, sensors
quiet. -/
def c3Inputs : Inputs :=
  { quietInputs with card := some "FF FF FF FF" }

/-- Exit scenario inputs: no card, exit threshold reports presence, one
slot occupied. -/
def c7Inputs : Inputs :=
  { quietInputs with exitSensor := PinLevel.LOW, slot1 := PinLevel.LOW }

/-! ## Helper lemmas -/

lemma occupiedCount_nonneg (i : Inputs) : 0 ≤ occupiedCount i := by
  unfold occupiedCount
  split_ifs <;> norm_num

lemma occupiedCount_le_four (i : Inputs) : occupiedCount i ≤ 4 := by
  unfold occupiedCount
  split_ifs <;> norm_num

lemma updateAvailableSlots_availableSlots (i : Inputs) (s : SysState) :
    (updateAvailableSlots i s).availableSlots = totalSlots - occupiedCount i := rfl

lemma updateAvailableSlots_bounds (i : Inputs) (s : SysState) :
    0 ≤ (updateAvailableSlots i s).availableSlots ∧
      (updateAvailableSlots i s).availableSlots ≤ totalSlots := by
  have h1 := occupiedCount_nonneg i
  have h2 := occupiedCount_le_four i
  simp only [updateAvailableSlots_availableSlots, totalSlots]
  omega

lemma cardPhase_availableSlots (i : Inputs) (p : SysState × Outputs) :
    (cardPhase i p).1.availableSlots = p.1.availableSlots := by
  unfold cardPhase
  cases i.card
  · simp
  · simp only
    split <;> simp

lemma entryPhase_bounds (i : Inputs) (p : SysState × Outputs)
    (h : 0 ≤ p.1.availableSlots ∧ p.1.availableSlots ≤ totalSlots) :
    0 ≤ (entryPhase i p).1.availableSlots ∧
      (entryPhase i p).1.availableSlots ≤ totalSlots := by
  simp only [totalSlots] at h ⊢
  by_cases hc : p.1.gateOpen = true ∧ p.1.vehicleEntering = true ∧ i.entrySensor = PinLevel.LOW
  · by_cases ha : p.1.availableSlots > 0
    · by_cases hl : p.1.lastCardIndex ≥ 0 <;>
        simp [entryPhase, hc, ha, hl] <;> omega
    · simp [entryPhase, hc, ha]
      omega
  · simp [entryPhase, hc]
    omega

lemma exitPhase_bounds (i : Inputs) (p : SysState × Outputs)
    (h : 0 ≤ p.1.availableSlots ∧ p.1.availableSlots ≤ totalSlots) :
    0 ≤ (exitPhase i p).1.availableSlots ∧
      (exitPhase i p).1.availableSlots ≤ totalSlots := by
  simp only [totalSlots] at h ⊢
  by_cases he : i.exitSensor = PinLevel.LOW
  · by_cases ha : p.1.availableSlots < (4 : Int)
    · by_cases hl : (0 : Int) ≤ p.1.lastCardIndex <;>
        simp [exitPhase, determineExitingVehicle, totalSlots, he, ha, hl] <;> omega
    · simp [exitPhase, determineExitingVehicle, totalSlots, he, ha]
      omega
  · simp [exitPhase, he]
    omega

/-! ## Claims -/

/-- **C2.** For every combination of the four slot-sensor readings, the
occupancy refresh sets `free_slots` to `total_slots` minus the count of
sensors reporting occupied, the resulting value lies in `[0, total_slots]`,
and the refresh is a pure function of the current sensor readings: calling
it twice with unchanged sensors yields the same result (and the result does
not depend on the prior state). -/
theorem claim_C2_refresh_pure_and_bounded (i : Inputs) (s t : SysState) :
    (updateAvailableSlots i s).availableSlots = totalSlots - occupiedCount i ∧
    0 ≤ (updateAvailableSlots i s).availableSlots ∧
    (updateAvailableSlots i s).availableSlots ≤ totalSlots ∧
    updateAvailableSlots i (updateAvailableSlots i s) = updateAvailableSlots i s ∧
    (updateAvailableSlots i s).availableSlots = (updateAvailableSlots i t).availableSlots :=
  ⟨rfl, (updateAvailableSlots_bounds i s).1, (updateAvailableSlots_bounds i s).2, rfl, rfl⟩

/-- **C5.** No entry traversal ever drives `free_slots` below 0, and no exit
traversal ever drives it above `total_slots`: after any full iteration of
the control cycle, from any state, `0 ≤ free_slots ≤ total_slots`. -/
theorem claim_C5_slot_count_bounds (i : Inputs) (s : SysState) :
    0 ≤ (loopStep i s).1.availableSlots ∧
      (loopStep i s).1.availableSlots ≤ totalSlots := by
  unfold loopStep cardStage
  apply exitPhase_bounds
  apply entryPhase_bounds
  rw [cardPhase_availableSlots]
  exact updateAvailableSlots_bounds i s

lemma checkAuthorizationAux_of_not_mem (uid : String) :
    ∀ (cards : List String) (idx : Int), uid ∉ cards →
      checkAuthorizationAux uid cards idx = -1 := by
  intro cards
  induction cards with
  | nil => intro idx _; rfl
  | cons c rest ih =>
    intro idx h
    simp only [List.mem_cons, not_or] at h
    simp only [checkAuthorizationAux, if_neg h.1]
    exact ih _ h.2

lemma checkAuthorization_of_not_mem (uid : String) (h : uid ∉ authorizedCards) :
    checkAuthorization uid = -1 :=
  checkAuthorizationAux_of_not_mem uid authorizedCards 0 h

lemma checkAuthorization_range (uid : String) :
    checkAuthorization uid = -1 ∨
      (0 ≤ checkAuthorization uid ∧ checkAuthorization uid < NUM_AUTHORIZED_CARDS) := by
  simp only [checkAuthorization, authorizedCards, checkAuthorizationAux, NUM_AUTHORIZED_CARDS]
  split_ifs <;> norm_num

lemma checkAuthorization_eq_one (uid : String) (h : checkAuthorization uid = 1) :
    uid = "E5 F6 G7 H8" := by
  by_cases h2 : uid = "E5 F6 G7 H8"
  · exact h2
  · by_cases h1 : uid = "A1 B2 C3 D4"
    · subst h1
      exact absurd h (by decide)
    · by_cases h3 : uid = "11 22 33 44"
      · subst h3
        exact absurd h (by decide)
      · have hmem : uid ∉ authorizedCards := by simp [authorizedCards, h1, h2, h3]
        rw [checkAuthorization_of_not_mem uid hmem] at h
        omega

lemma entryPhase_lastCardIndex (i : Inputs) (p : SysState × Outputs) :
    (entryPhase i p).1.lastCardIndex = p.1.lastCardIndex := by
  by_cases hc : p.1.gateOpen = true ∧ p.1.vehicleEntering = true ∧ i.entrySensor = PinLevel.LOW
  · by_cases ha : p.1.availableSlots > 0
    · by_cases hl : (0 : Int) ≤ p.1.lastCardIndex <;> simp [entryPhase, hc, ha, hl]
    · simp [entryPhase, hc, ha]
  · simp [entryPhase, hc]

lemma exitPhase_lastCardIndex (i : Inputs) (p : SysState × Outputs) :
    (exitPhase i p).1.lastCardIndex = p.1.lastCardIndex := by
  by_cases he : i.exitSensor = PinLevel.LOW
  · by_cases ha : p.1.availableSlots < totalSlots
    · by_cases hl : (0 : Int) ≤ p.1.lastCardIndex <;>
        simp [exitPhase, determineExitingVehicle, he, ha, hl]
    · simp [exitPhase, determineExitingVehicle, he, ha]
  · simp [exitPhase, he]

lemma cardPhase_inv (i : Inputs) (p : SysState × Outputs) (h : cardIndexInv p.1) :
    cardIndexInv (cardPhase i p).1 := by
  cases hc : i.card with
  | none => simpa [cardPhase, hc] using h
  | some uid =>
    by_cases hk : (0 : Int) ≤ checkAuthorization uid
    · have hr := checkAuthorization_range uid
      simp [cardPhase, hc, hk, cardIndexInv, NUM_AUTHORIZED_CARDS] at *
      omega
    · simpa [cardPhase, hc, hk] using h

lemma updateAvailableSlots_inv (i : Inputs) (s : SysState) (h : cardIndexInv s) :
    cardIndexInv (updateAvailableSlots i s) := by
  simpa [cardIndexInv, updateAvailableSlots] using h

lemma entryPhase_inv (i : Inputs) (p : SysState × Outputs) (h : cardIndexInv p.1) :
    cardIndexInv (entryPhase i p).1 := by
  unfold cardIndexInv at *
  rw [entryPhase_lastCardIndex]
  exact h

lemma exitPhase_inv (i : Inputs) (p : SysState × Outputs) (h : cardIndexInv p.1) :
    cardIndexInv (exitPhase i p).1 := by
  unfold cardIndexInv at *
  rw [exitPhase_lastCardIndex]
  exact h

lemma phone_getD_mem (k : Int) (h0 : 0 ≤ k) (h3 : k < NUM_AUTHORIZED_CARDS) :
    userPhoneNumbers.getD k.toNat "" ∈ userPhoneNumbers := by
  have hk : k.toNat < 3 := by
    simp only [NUM_AUTHORIZED_CARDS] at h3
    omega
  have hall : ∀ n < 3, userPhoneNumbers.getD n "" ∈ userPhoneNumbers := by decide
  exact hall _ hk

lemma cardPhase_sms (i : Inputs) (p : SysState × Outputs) :
    (cardPhase i p).2.sms = p.2.sms := by
  cases hc : i.card with
  | none => simp [cardPhase, hc]
  | some uid =>
    by_cases hk : (0 : Int) ≤ checkAuthorization uid <;> simp [cardPhase, hc, hk]

lemma entryPhase_sms_phones (i : Inputs) (p : SysState × Outputs)
    (hinv : cardIndexInv p.1) (h : ∀ pm ∈ p.2.sms, pm.1 ∈ userPhoneNumbers) :
    ∀ pm ∈ (entryPhase i p).2.sms, pm.1 ∈ userPhoneNumbers := by
  by_cases hc : p.1.gateOpen = true ∧ p.1.vehicleEntering = true ∧ i.entrySensor = PinLevel.LOW
  · by_cases ha : p.1.availableSlots > 0
    · by_cases hl : (0 : Int) ≤ p.1.lastCardIndex
      · simp only [entryPhase, if_pos hc, if_pos ha, if_pos hl]
        intro pm hpm
        simp only [List.mem_append, List.mem_singleton] at hpm
        rcases hpm with hpm | hpm
        · exact h pm hpm
        · subst hpm
          rcases hinv with hi | hi
          · omega
          · exact phone_getD_mem _ hi.1 hi.2
      · simp only [entryPhase, if_pos hc, if_pos ha, if_neg hl]
        exact h
    · simp only [entryPhase, if_pos hc, if_neg ha]
      exact h
  · simp only [entryPhase, if_neg hc]
    exact h

lemma exitPhase_sms_phones (i : Inputs) (p : SysState × Outputs)
    (hinv : cardIndexInv p.1) (h : ∀ pm ∈ p.2.sms, pm.1 ∈ userPhoneNumbers) :
    ∀ pm ∈ (exitPhase i p).2.sms, pm.1 ∈ userPhoneNumbers := by
  by_cases he : i.exitSensor = PinLevel.LOW
  · by_cases ha : p.1.availableSlots < totalSlots
    · by_cases hl : (0 : Int) ≤ p.1.lastCardIndex
      · simp only [exitPhase, determineExitingVehicle, if_pos he, if_pos ha, if_pos hl]
        intro pm hpm
        simp only [List.mem_append, List.mem_singleton] at hpm
        rcases hpm with hpm | hpm
        · exact h pm hpm
        · subst hpm
          rcases hinv with hi | hi
          · omega
          · exact phone_getD_mem _ hi.1 hi.2
      · simp only [exitPhase, determineExitingVehicle, if_pos he, if_pos ha, if_neg hl]
        exact h
    · simp only [exitPhase, if_pos he, if_neg ha]
      exact h
  · simp only [exitPhase, if_neg he]
    exact h

/-- **C3.** For every credential identifier not present in the
authorized-card table, authorization returns -1 ("no match"), the gate is
not opened (no servo command is issued and the gate state stays CLOSED), a
denial message is shown on the display, no notification is sent, and no
entry session is created (`vehicleEntering` and `lastCardIndex` are
untouched). Stated for a cycle in which the denied presentation is the only
event (gate closed, exit threshold quiet). -/
theorem claim_C3_denied_card (uid : String) (i : Inputs) (s : SysState)
    (hmem : uid ∉ authorizedCards) (hcard : i.card = some uid)
    (hexit : i.exitSensor = PinLevel.HIGH) (hgate : s.gateOpen = false) :
    checkAuthorization uid = -1 ∧
    (loopStep i s).1.gateOpen = false ∧
    (loopStep i s).2.gateCmds = [] ∧
    "Access Denied!  " ∈ (loopStep i s).2.lcdPrints ∧
    (loopStep i s).2.sms = [] ∧
    (loopStep i s).1.vehicleEntering = s.vehicleEntering ∧
    (loopStep i s).1.lastCardIndex = s.lastCardIndex := by
  have hauth : checkAuthorization uid = -1 := checkAuthorization_of_not_mem uid hmem
  refine ⟨hauth, ?_⟩
  simp [loopStep, cardStage, cardPhase, entryPhase, exitPhase, updateAvailableSlots,
    lcdDisplayPrints, hcard, hauth, hexit, hgate]

/-- Witness for C3 at the spec's denied-scenario input `"FF FF FF FF"`. -/
theorem claim_C3_denied_card_witness :
    checkAuthorization "FF FF FF FF" = -1 ∧
    (loopStep c3Inputs initialState).1.gateOpen = false ∧
    (loopStep c3Inputs initialState).2.gateCmds = [] ∧
    "Access Denied!  " ∈ (loopStep c3Inputs initialState).2.lcdPrints ∧
    (loopStep c3Inputs initialState).2.sms = [] ∧
    (loopStep c3Inputs initialState).1.vehicleEntering = initialState.vehicleEntering ∧
    (loopStep c3Inputs initialState).1.lastCardIndex = initialState.lastCardIndex :=
  claim_C3_denied_card "FF FF FF FF" c3Inputs initialState (by decide) rfl rfl rfl

lemma loopStep_authorized (uid : String) (i : Inputs) (s : SysState) (k : Int)
    (hk : checkAuthorization uid = k) (hk0 : 0 ≤ k) (hcard : i.card = some uid)
    (hentry : i.entrySensor = PinLevel.HIGH) (hexit : i.exitSensor = PinLevel.HIGH) :
    (loopStep i s).1.gateOpen = true ∧
    (loopStep i s).1.vehicleEntering = true ∧
    (loopStep i s).1.lastCardIndex = k ∧
    (loopStep i s).2.gateCmds = [GateCmd.openCmd] := by
  simp [loopStep, cardStage, cardPhase, entryPhase, exitPhase, updateAvailableSlots,
    lcdDisplayPrints, hcard, hk, hk0, hentry, hexit]

/-- **C4.** For every credential identifier present in the authorized-card
table, authorization returns the configured index — the first index whose
table entry equals the identifier under exact string comparison — and in
the presentation cycle the gate sequencer transitions CLOSED→OPEN exactly
once (a single open servo command), recording the session's credential
index in `lastCardIndex` and marking the entry session active. -/
theorem claim_C4_authorized_card (uid : String) (i : Inputs) (s : SysState)
    (hmem : uid ∈ authorizedCards) (hcard : i.card = some uid)
    (hentry : i.entrySensor = PinLevel.HIGH) (hexit : i.exitSensor = PinLevel.HIGH) :
    0 ≤ checkAuthorization uid ∧
    checkAuthorization uid < NUM_AUTHORIZED_CARDS ∧
    authorizedCards.get? (checkAuthorization uid).toNat = some uid ∧
    (∀ j < (checkAuthorization uid).toNat, authorizedCards.get? j ≠ some uid) ∧
    (loopStep i s).1.gateOpen = true ∧
    (loopStep i s).1.vehicleEntering = true ∧
    (loopStep i s).1.lastCardIndex = checkAuthorization uid ∧
    (loopStep i s).2.gateCmds = [GateCmd.openCmd] := by
  have hm : uid = "A1 B2 C3 D4" ∨ uid = "E5 F6 G7 H8" ∨ uid = "11 22 33 44" := by
    simpa [authorizedCards] using hmem
  rcases hm with h | h | h <;> subst h
  · have := loopStep_authorized "A1 B2 C3 D4" i s 0 (by decide) (by norm_num) hcard hentry hexit
    exact ⟨by decide, by decide, by decide, by decide, this.1, this.2.1,
      by rw [this.2.2.1]; decide, this.2.2.2⟩
  · have := loopStep_authorized "E5 F6 G7 H8" i s 1 (by decide) (by norm_num) hcard hentry hexit
    exact ⟨by decide, by decide, by decide, by decide, this.1, this.2.1,
      by rw [this.2.2.1]; decide, this.2.2.2⟩
  · have := loopStep_authorized "11 22 33 44" i s 2 (by decide) (by norm_num) hcard hentry hexit
    exact ⟨by decide, by decide, by decide, by decide, this.1, this.2.1,
      by rw [this.2.2.1]; decide, this.2.2.2⟩

/-- Witness for C4 at credential `"A1 B2 C3 D4"` from the initial state. -/
theorem claim_C4_authorized_card_witness :
    0 ≤ checkAuthorization "A1 B2 C3 D4" ∧
    checkAuthorization "A1 B2 C3 D4" < NUM_AUTHORIZED_CARDS ∧
    authorizedCards.get? (checkAuthorization "A1 B2 C3 D4").toNat = some "A1 B2 C3 D4" ∧
    (∀ j < (checkAuthorization "A1 B2 C3 D4").toNat,
      authorizedCards.get? j ≠ some "A1 B2 C3 D4") ∧
    (loopStep c6Inputs1 initialState).1.gateOpen = true ∧
    (loopStep c6Inputs1 initialState).1.vehicleEntering = true ∧
    (loopStep c6Inputs1 initialState).1.lastCardIndex = checkAuthorization "A1 B2 C3 D4" ∧
    (loopStep c6Inputs1 initialState).2.gateCmds = [GateCmd.openCmd] :=
  claim_C4_authorized_card "A1 B2 C3 D4" c6Inputs1 initialState (by decide) rfl rfl rfl

/-- **C9.** `checkAuthorization` returns either -1 or an index in
`[0, NUM_AUTHORIZED_CARDS)`; the invariant that `lastCardIndex` is -1 or
such an index is preserved by every control cycle; and under that invariant
every SMS sent in a cycle is addressed to an element of the 3-element
`userPhoneNumbers` table (the guarded `userPhoneNumbers[...]` reads are in
bounds — the out-of-bounds default of the model is never produced). -/
theorem claim_C9_phone_index_in_bounds (uid : String) (i : Inputs) (s : SysState)
    (hinv : cardIndexInv s) :
    (checkAuthorization uid = -1 ∨
      (0 ≤ checkAuthorization uid ∧ checkAuthorization uid < NUM_AUTHORIZED_CARDS)) ∧
    cardIndexInv (loopStep i s).1 ∧
    (∀ pm ∈ (loopStep i s).2.sms, pm.1 ∈ userPhoneNumbers) := by
  refine ⟨checkAuthorization_range uid, ?_, ?_⟩
  · unfold loopStep cardStage
    exact exitPhase_inv _ _ (entryPhase_inv _ _ (cardPhase_inv _ _
      (updateAvailableSlots_inv _ _ hinv)))
  · unfold loopStep cardStage
    have hinv1 : cardIndexInv (cardPhase i
        (updateAvailableSlots i s,
          { sms := [], lcdPrints := lcdDisplayPrints (updateAvailableSlots i s),
            gateCmds := [] })).1 :=
      cardPhase_inv _ _ (updateAvailableSlots_inv _ _ hinv)
    have hsms1 : ∀ pm ∈ (cardPhase i
        (updateAvailableSlots i s,
          { sms := [], lcdPrints := lcdDisplayPrints (updateAvailableSlots i s),
            gateCmds := [] })).2.sms, pm.1 ∈ userPhoneNumbers := by
      rw [cardPhase_sms]
      intro pm hpm
      simp at hpm
    exact exitPhase_sms_phones _ _ (entryPhase_inv _ _ hinv1)
      (entryPhase_sms_phones _ _ hinv1 hsms1)

/-- Witness for C9 at a concrete unknown credential, quiet inputs and the
initial state. -/
theorem claim_C9_phone_index_in_bounds_witness :
    (checkAuthorization "00 00 00 00" = -1 ∨
      (0 ≤ checkAuthorization "00 00 00 00" ∧
        checkAuthorization "00 00 00 00" < NUM_AUTHORIZED_CARDS)) ∧
    cardIndexInv (loopStep quietInputs initialState).1 ∧
    (∀ pm ∈ (loopStep quietInputs initialState).2.sms, pm.1 ∈ userPhoneNumbers) :=
  claim_C9_phone_index_in_bounds "00 00 00 00" quietInputs initialState
    (Or.inl rfl)

/-- **C1 (counterexample).** The claim says the "entered" notification
dispatch still fires when `free_slots` is already 0 at the
entry-threshold crossing. At the concrete capacity-exhaustion input —
active entry session for card index 0, all four slot sensors occupied (so
the refresh yields `free_slots = 0`), entry threshold crossed — the
premises of the claim hold, the gate does close, yet the cycle sends no
SMS at all: the dispatch does not fire, refuting the claim. -/
theorem claim_C1_counterexample :
    (updateAvailableSlots c1Inputs c1State).availableSlots = 0 ∧
    c1State.gateOpen = true ∧
    c1State.vehicleEntering = true ∧
    c1State.lastCardIndex = 0 ∧
    c1Inputs.entrySensor = PinLevel.LOW ∧
    (loopStep c1Inputs c1State).1.gateOpen = false ∧
    (loopStep c1Inputs c1State).2.sms = [] := by
  decide

/-- **C1 (amended).** If `free_slots` is already 0 when an active entry
session's entry-threshold crossing is detected, then `free_slots` remains 0
(it is not decremented below zero), the gate still closes and the session
ends — but the "entered" notification dispatch does NOT fire (the SMS send
sits inside the `availableSlots > 0` branch, so it is skipped along with
the decrement). -/
theorem claim_C1_capacity_exhaustion (i : Inputs) (s : SysState)
    (hcard : i.card = none) (hentry : i.entrySensor = PinLevel.LOW)
    (hexit : i.exitSensor = PinLevel.HIGH)
    (hgate : s.gateOpen = true) (hveh : s.vehicleEntering = true)
    (hs1 : i.slot1 = PinLevel.LOW) (hs2 : i.slot2 = PinLevel.LOW)
    (hs3 : i.slot3 = PinLevel.LOW) (hs4 : i.slot4 = PinLevel.LOW) :
    (loopStep i s).1.availableSlots = 0 ∧
    (loopStep i s).2.sms = [] ∧
    (loopStep i s).1.gateOpen = false ∧
    (loopStep i s).1.vehicleEntering = false ∧
    (loopStep i s).2.gateCmds = [GateCmd.closeCmd] := by
  have hocc : occupiedCount i = 4 := by
    simp [occupiedCount, hs1, hs2, hs3, hs4]
  simp [loopStep, cardStage, cardPhase, entryPhase, exitPhase, updateAvailableSlots,
    lcdDisplayPrints, totalSlots, hocc, hcard, hentry, hexit, hgate, hveh]

/-- Witness for the amended C1 at the concrete capacity-exhaustion input. -/
theorem claim_C1_capacity_exhaustion_witness :
    (loopStep c1Inputs c1State).1.availableSlots = 0 ∧
    (loopStep c1Inputs c1State).2.sms = [] ∧
    (loopStep c1Inputs c1State).1.gateOpen = false ∧
    (loopStep c1Inputs c1State).1.vehicleEntering = false ∧
    (loopStep c1Inputs c1State).2.gateCmds = [GateCmd.closeCmd] :=
  claim_C1_capacity_exhaustion c1Inputs c1State rfl rfl rfl rfl rfl rfl rfl rfl rfl

/-- **C7.** On each cycle where the exit-threshold sensor reports a vehicle
present (and no other event occurs), the gate opens and then closes (the
cycle's servo commands are exactly open-then-close, ending not-open); if
the freshly refreshed `free_slots` is below `total_slots` it is
incremented, and an "exited" notification is sent to the phone number of
the credential index last recorded as having entered — but when no entry
was ever recorded (`lastCardIndex = -1`) the notification dispatch is a
silent no-op. -/
theorem claim_C7_exit_flow (i : Inputs) (s : SysState)
    (hcard : i.card = none) (hentry : i.entrySensor = PinLevel.HIGH)
    (hexit : i.exitSensor = PinLevel.LOW) :
    (loopStep i s).2.gateCmds = [GateCmd.openCmd, GateCmd.closeCmd] ∧
    (loopStep i s).1.gateOpen = false ∧
    (loopStep i s).1.availableSlots =
      (if totalSlots - occupiedCount i < totalSlots
        then totalSlots - occupiedCount i + 1 else totalSlots - occupiedCount i) ∧
    (loopStep i s).2.sms =
      (if totalSlots - occupiedCount i < totalSlots ∧ 0 ≤ s.lastCardIndex
        then [(userPhoneNumbers.getD s.lastCardIndex.toNat "",
               "Your vehicle has exited the parking. Thank you!")]
        else []) ∧
    (s.lastCardIndex = -1 → (loopStep i s).2.sms = []) := by
  by_cases ha : totalSlots - occupiedCount i < totalSlots
  · by_cases hl : (0 : Int) ≤ s.lastCardIndex
    · simp [loopStep, cardStage, cardPhase, entryPhase, exitPhase, updateAvailableSlots,
        lcdDisplayPrints, determineExitingVehicle, hcard, hentry, hexit, ha, hl]
      omega
    · simp [loopStep, cardStage, cardPhase, entryPhase, exitPhase, updateAvailableSlots,
        lcdDisplayPrints, determineExitingVehicle, hcard, hentry, hexit, ha, hl]
  · by_cases hl : (0 : Int) ≤ s.lastCardIndex <;>
      simp [loopStep, cardStage, cardPhase, entryPhase, exitPhase, updateAvailableSlots,
        lcdDisplayPrints, determineExitingVehicle, hcard, hentry, hexit, ha, hl]

/-- Witness for C7: exit presence with one occupied slot, from a state with
no entry ever recorded — the slot count increments and no SMS is sent. -/
theorem claim_C7_exit_flow_witness :
    (loopStep c7Inputs initialState).2.gateCmds = [GateCmd.openCmd, GateCmd.closeCmd] ∧
    (loopStep c7Inputs initialState).1.gateOpen = false ∧
    (loopStep c7Inputs initialState).1.availableSlots =
      (if totalSlots - occupiedCount c7Inputs < totalSlots
        then totalSlots - occupiedCount c7Inputs + 1 else totalSlots - occupiedCount c7Inputs) ∧
    (loopStep c7Inputs initialState).2.sms =
      (if totalSlots - occupiedCount c7Inputs < totalSlots ∧ 0 ≤ initialState.lastCardIndex
        then [(userPhoneNumbers.getD initialState.lastCardIndex.toNat "",
               "Your vehicle has exited the parking. Thank you!")]
        else []) ∧
    (initialState.lastCardIndex = -1 → (loopStep c7Inputs initialState).2.sms = []) :=
  claim_C7_exit_flow c7Inputs initialState rfl rfl rfl

lemma exitPhase_skip (i : Inputs) (p : SysState × Outputs)
    (he : i.exitSensor = PinLevel.HIGH) : exitPhase i p = p := by
  simp [exitPhase, he]

lemma exitPhase_closes (i : Inputs) (p : SysState × Outputs)
    (he : i.exitSensor = PinLevel.LOW) :
    (exitPhase i p).1.gateOpen = false ∧
      (exitPhase i p).2.gateCmds.getLast? = some GateCmd.closeCmd := by
  by_cases ha : p.1.availableSlots < totalSlots
  · by_cases hl : (0 : Int) ≤ p.1.lastCardIndex <;>
      simp [exitPhase, determineExitingVehicle, he, ha, hl, List.getLast?_concat]
  · simp [exitPhase, he, ha, List.getLast?_concat]

lemma entryPhase_closes (i : Inputs) (p : SysState × Outputs)
    (hc : p.1.gateOpen = true ∧ p.1.vehicleEntering = true ∧
      i.entrySensor = PinLevel.LOW) :
    (entryPhase i p).1.gateOpen = false ∧
      (entryPhase i p).2.gateCmds.getLast? = some GateCmd.closeCmd := by
  by_cases ha : p.1.availableSlots > 0
  · by_cases hl : (0 : Int) ≤ p.1.lastCardIndex <;>
      simp [entryPhase, hc, ha, hl, List.getLast?_concat]
  · simp [entryPhase, hc, ha, List.getLast?_concat]

/-- **C8.** At the end of every completed entry sequence and every completed
exit sequence, the gate state is CLOSED: whenever the cycle's entry block
fires (gate open, session active, entry threshold crossed, judged on the
state after the RFID block) or its exit block fires (exit threshold
reports presence), the cycle ends with `gateOpen = false` and its last
servo command is the close actuation, which runs unconditionally on both
paths. -/
theorem claim_C8_gate_returns_closed (i : Inputs) (s : SysState)
    (h : ((cardStage i s).1.gateOpen = true ∧ (cardStage i s).1.vehicleEntering = true ∧
          i.entrySensor = PinLevel.LOW) ∨ i.exitSensor = PinLevel.LOW) :
    (loopStep i s).1.gateOpen = false ∧
      (loopStep i s).2.gateCmds.getLast? = some GateCmd.closeCmd := by
  by_cases he : i.exitSensor = PinLevel.LOW
  · unfold loopStep
    exact exitPhase_closes i _ he
  · rcases h with hentry | hexit
    · have he' : i.exitSensor = PinLevel.HIGH := by
        cases hx : i.exitSensor with
        | LOW => exact absurd hx he
        | HIGH => rfl
      unfold loopStep
      rw [exitPhase_skip i _ he']
      exact entryPhase_closes i _ hentry
    · exact absurd hexit he

/-- Witness for C8: a completed exit sequence from the initial state ends
with the gate closed. -/
theorem claim_C8_gate_returns_closed_witness :
    (loopStep c1Inputs c1State).1.gateOpen = false ∧
      (loopStep c1Inputs c1State).2.gateCmds.getLast? = some GateCmd.closeCmd :=
  claim_C8_gate_returns_closed c1Inputs c1State (Or.inl (by decide))

/-- **C6.** Entry scenario: with `total_slots = 4`, `free_slots = 4` (all
slot sensors FREE) and credential `"A1 B2 C3 D4"` presented, authorization
returns index 0 and the gate opens (cycle 1); on entry-threshold passage
(cycle 2) `free_slots` becomes 3, an SMS is sent to `"+1234567890"` — the
address configured for index 0 — whose text contains `"3"`, and the gate
closes. -/
theorem claim_C6_entry_scenario :
    checkAuthorization "A1 B2 C3 D4" = 0 ∧
    (loopStep c6Inputs1 initialState).1 =
      { availableSlots := 4, gateOpen := true, lastCardIndex := 0,
        vehicleEntering := true } ∧
    (loopStep c6Inputs1 initialState).2.gateCmds = [GateCmd.openCmd] ∧
    (loopStep c6Inputs2 (loopStep c6Inputs1 initialState).1).1.availableSlots = 3 ∧
    (loopStep c6Inputs2 (loopStep c6Inputs1 initialState).1).2.sms =
      [("+1234567890", "Your vehicle has entered the parking. Available slots: 3")] ∧
    (∃ pre post : String,
      "Your vehicle has entered the parking. Available slots: 3" =
        pre ++ "3" ++ post) ∧
    (loopStep c6Inputs2 (loopStep c6Inputs1 initialState).1).1.gateOpen = false ∧
    (loopStep c6Inputs2 (loopStep c6Inputs1 initialState).1).2.gateCmds =
      [GateCmd.closeCmd] := by
  refine ⟨by decide, by decide, by decide, by decide, by decide,
    ⟨"Your vehicle has entered the parking. Available slots: ", "", by decide⟩,
    by decide, by decide⟩

/-! ## `getCardUID`: format of the produced identifiers (C10) -/

lemma pad_hex_data (b : Fin 256) :
    (if b.val < 16 then (" 0" : String) else " ").data ++ (hexStringOfByte b).data =
      spaceChar :: hexPairLowerData b := by
  have h2 : (" 0" : String).data = [spaceChar, hexDigitChar 0] := by decide
  have h1 : (" " : String).data = [spaceChar] := by decide
  by_cases h : b.val < 16
  · have h16 : b.val / 16 = 0 := Nat.div_eq_of_lt h
    have hm : b.val % 16 = b.val := Nat.mod_eq_of_lt h
    rw [if_pos h, h2,
      show hexStringOfByte b = ⟨[hexDigitChar b.val]⟩ from by simp [hexStringOfByte, h]]
    simp [hexPairLowerData, h16, hm]
  · rw [if_neg h, h1,
      show hexStringOfByte b = ⟨[hexDigitChar (b.val / 16), hexDigitChar (b.val % 16)]⟩
        from by simp [hexStringOfByte, h]]
    simp [hexPairLowerData]

lemma uid_fold_data (bytes : List (Fin 256)) :
    ∀ acc : String,
      (bytes.foldl
        (fun acc b => acc ++ (if b.val < 16 then " 0" else " ") ++ hexStringOfByte b)
        acc).data = acc.data ++ uidRawData bytes := by
  induction bytes with
  | nil => intro acc; simp [uidRawData]
  | cons b rest ih =>
    intro acc
    rw [List.foldl_cons, ih]
    rw [String.data_append, String.data_append, uidRawData]
    simp only [List.append_assoc, List.cons_append]
    rw [← List.append_assoc ((if b.val < 16 then (" 0" : String) else " ").data)
        ((hexStringOfByte b).data) (uidRawData rest), pad_hex_data]
    simp

lemma uidRawData_map_toUpper (bytes : List (Fin 256)) :
    (uidRawData bytes).map Char.toUpper = uidUpperData bytes := by
  have hsp : spaceChar.toUpper = spaceChar := by decide
  induction bytes with
  | nil => simp [uidRawData, uidUpperData]
  | cons b rest ih =>
    simp [uidRawData, uidUpperData, hsp, ih, hexPairLowerData, hexPairUpperData,
      hexUpperChar]

lemma uidUpperData_cons (rest : List (Fin 256)) :
    ∀ b : Fin 256,
      uidUpperData (b :: rest) = spaceChar :: uidFormatData (b :: rest) := by
  induction rest with
  | nil => intro b; simp [uidUpperData, uidFormatData]
  | cons c r ih =>
    intro b
    rw [show uidUpperData (b :: c :: r) =
          (spaceChar :: hexPairUpperData b) ++ uidUpperData (c :: r) from rfl,
        ih c,
        show uidFormatData (b :: c :: r) =
          hexPairUpperData b ++ spaceChar :: uidFormatData (c :: r) from rfl]
    simp

lemma getCardUID_data (bytes : List (Fin 256)) :
    (getCardUID bytes).data = uidFormatData bytes := by
  show ((((bytes.foldl
      (fun acc b => acc ++ (if b.val < 16 then " 0" else " ") ++ hexStringOfByte b)
      "").data).map Char.toUpper).drop 1) = uidFormatData bytes
  rw [uid_fold_data bytes "", show ("" : String).data = [] from rfl, List.nil_append,
    uidRawData_map_toUpper]
  cases bytes with
  | nil => rfl
  | cons b rest => rw [uidUpperData_cons rest b, List.drop_one, List.tail_cons]

lemma hexUpperChar_isUpperHexDigit : ∀ n < 16, isUpperHexDigit (hexUpperChar n) := by
  decide

lemma hexPairUpperData_chars (b : Fin 256) :
    ∀ c ∈ hexPairUpperData b, isUpperHexDigit c := by
  intro c hc
  have hd : b.val / 16 < 16 := by have := b.isLt; omega
  have hm : b.val % 16 < 16 := by omega
  simp only [hexPairUpperData, List.mem_cons, List.mem_singleton,
    List.not_mem_nil, or_false] at hc
  rcases hc with rfl | rfl
  · exact hexUpperChar_isUpperHexDigit _ hd
  · exact hexUpperChar_isUpperHexDigit _ hm

lemma uidFormatData_chars :
    ∀ bytes : List (Fin 256), ∀ c ∈ uidFormatData bytes,
      c = spaceChar ∨ isUpperHexDigit c := by
  intro bytes
  induction bytes with
  | nil => intro c hc; simp [uidFormatData] at hc
  | cons b rest ih =>
    cases rest with
    | nil =>
      intro c hc
      simp only [uidFormatData] at hc
      exact Or.inr (hexPairUpperData_chars b c hc)
    | cons c2 r =>
      intro c hc
      rw [show uidFormatData (b :: c2 :: r) =
            hexPairUpperData b ++ spaceChar :: uidFormatData (c2 :: r) from rfl] at hc
      rcases List.mem_append.mp hc with hc | hc
      · exact Or.inr (hexPairUpperData_chars b c hc)
      · rcases List.mem_cons.mp hc with rfl | hc
        · exact Or.inl rfl
        · exact ih c hc

/-- **C10.** Every identifier produced by `getCardUID` is exactly the
canonical format `uidFormatData`: two-character uppercase-hex pairs
(each byte rendered as exactly two uppercase hexadecimal digits) separated
by single spaces, so every character of it is a space or an uppercase hex
digit; consequently, for every possible physical card UID,
`checkAuthorization` never returns index 1, since the configured entry
`"E5 F6 G7 H8"` contains the non-hexadecimal characters G and H and can
never equal a `getCardUID` output. -/
theorem claim_C10_uid_format_never_matches_card_two (bytes : List (Fin 256)) :
    getCardUID bytes = String.mk (uidFormatData bytes) ∧
    (∀ b : Fin 256, (hexPairUpperData b).length = 2 ∧
      ∀ c ∈ hexPairUpperData b, isUpperHexDigit c) ∧
    (∀ c ∈ (getCardUID bytes).data, c = spaceChar ∨ isUpperHexDigit c) ∧
    checkAuthorization (getCardUID bytes) ≠ 1 := by
  have hdata := getCardUID_data bytes
  have hchars : ∀ c ∈ (getCardUID bytes).data, c = spaceChar ∨ isUpperHexDigit c := by
    rw [hdata]
    exact uidFormatData_chars bytes
  refine ⟨String.ext hdata, fun b => ⟨rfl, hexPairUpperData_chars b⟩, hchars, ?_⟩
  intro h1
  have heq := checkAuthorization_eq_one _ h1
  have hG : ('G' : Char) ∈ (getCardUID bytes).data := by
    rw [heq]
    decide
  rcases hchars _ hG with h | h
  · exact absurd h (by decide)
  · exact absurd h (by decide)
